import Mathlib

/-!
Verification development for the `genmsg` gentools module
(`src/genmsg/gentools.py`): fingerprint (md5) computation, canonical
hash-text rendering, dependency resolution, and full-text assembly for
message and service schemas.

The embedding follows the Python source closely.  Python's dynamic
failures are modelled with `Except PyErr`; machine details that the
source delegates to collaborator modules (`msgs`, `names`) that are not
part of the source tree are modelled from the specification's interface
descriptions and marked `Modelled from the spec`.  Text-mode digesting
follows the Python 2 reading of the source (where `str` is a byte
string, so `hash.update` accepts the text directly).

The md5 digest itself is idealized: a digest state is identified with
the byte stream fed to it via `update`, and `hexdigest` returns that
stream.  Under the standard collision-freeness idealization, equality
and inequality of fingerprints correspond exactly to equality and
inequality of the streams the source feeds to `hashlib.md5`.
-/

set_option autoImplicit false

/-- Modelled from the spec (§3): a constant declaration `(type, name,
literal-text value)` of a message schema.  `valText` is the verbatim
value text (`c.val_text` in the source). -/
structure Constant where
  type : String
  name : String
  valText : String
  deriving DecidableEq

/-- Modelled from the spec (§3): a message schema — ordered constants,
ordered `(type, field-name)` pairs (stored as the two parallel lists
`types` and `names` exactly as the source's `MsgSpec` exposes them),
and the verbatim original definition text. -/
structure MsgSpec where
  constants : List Constant
  types : List String
  names : List String
  text : String
  deriving DecidableEq

/-- Modelled from the spec (§3): a service schema is exactly a pair of
message schemas (request, response) plus its own raw text. -/
structure SrvSpec where
  request : MsgSpec
  response : MsgSpec
  text : String
  deriving DecidableEq

/-- A Python value as the gentools entry points see it: a `MsgSpec`, a
`SrvSpec`, or any other object.  Python is duck-typed, so an "other"
value may or may not expose a `text` attribute; we record that
attribute's value when present (`other (some t)`) — this is what
`_compute_hash_v1` reads without any isinstance check. -/
inductive PyValue where
  | msg : MsgSpec → PyValue
  | srv : SrvSpec → PyValue
  | other : Option String → PyValue
  deriving DecidableEq

/-- The dependency-bundle dictionary returned by `get_dependencies`
(source lines 271/273): keys `spec`, `package`, `deps`, `uniquedeps`,
and the optional `files` key.  `files.isSome` models the Python test
`'files' in get_deps_dict` (source line 96). -/
structure Bundle where
  spec : PyValue
  package : String
  deps : List String
  uniquedeps : List String
  files : Option (List (String × String))
  deriving DecidableEq

/-- Modelled from the spec (§6): the external collaborator operations
this core consumes.  `is_builtin` decides builtin primitives,
`getRegistered` is `msgs.get_registered(type, context_package)` (the
one-argument form is `getRegistered t none`), and `msg_file` maps a
package and bare name to a backing file path. -/
structure Env where
  is_builtin : String → Bool
  getRegistered : String → Option String → Option MsgSpec
  msg_file : String → String → String

/-- Modelled from the spec (§6): `base_msg_type` strips array/container
syntax from a declared field type, i.e. everything from the first `[`
onwards. -/
def base_msg_type (t : String) : String :=
  String.mk (t.data.takeWhile (fun ch => ch ≠ '['))

/-- Modelled from the spec (§6): `package_resource_name` splits a
qualified name at its first `/` into `(package_or_empty, bare_name)`. -/
def package_resource_name (n : String) : String × String :=
  if n.data.contains '/' then
    (String.mk (n.data.takeWhile (fun ch => ch ≠ '/')),
     String.mk ((n.data.dropWhile (fun ch => ch ≠ '/')).drop 1))
  else
    ("", n)

/-- Python's whitespace set for `str.strip()`: space, tab, newline,
carriage return, vertical tab, form feed. -/
def pyIsSpace (ch : Char) : Bool :=
  ch == ' ' || ch == '\t' || ch == '\n' || ch == '\r' ||
  ch == Char.ofNat 11 || ch == Char.ofNat 12

/-- Python `s.strip()`: remove leading and trailing whitespace. -/
def pyStrip (s : String) : String :=
  String.mk (((s.data.dropWhile pyIsSpace).reverse.dropWhile pyIsSpace).reverse)

/-- Python `s[:-1]`: all characters but the last (the empty string for
an empty input), used at source line 215. -/
def pySliceToLast (s : String) : String :=
  String.mk s.data.dropLast

/-- Concatenation of a list of strings, in order; the result of a
sequence of `buff.write` calls on a `StringIO`. -/
def strConcat : List String → String
  | [] => ""
  | s :: rest => s ++ strConcat rest

/-- Idealized md5 digest state: the byte stream accumulated by `update`
calls.  `hashlib.md5()` starts from the empty stream. -/
structure Md5 where
  stream : String
  deriving DecidableEq

/-- `hashlib.md5()`: a fresh digest context. -/
def md5_new : Md5 := ⟨""⟩

/-- `hash.update(s)`: md5 digests the concatenation of all updates, so
the state is the stream extended with `s`. -/
def Md5.update (h : Md5) (s : String) : Md5 := ⟨h.stream ++ s⟩

/-- `hash.hexdigest()` under the collision-freeness idealization: the
digest is identified with the accumulated stream, so fingerprints are
equal exactly when the source fed equal streams to `hashlib.md5`. -/
def Md5.hexdigest (h : Md5) : String := h.stream

/-- The Python exceptions the embedded code can raise. -/
inductive PyErr where
  | typeError : PyErr
  | nameError : String → PyErr
  | keyError : String → PyErr
  | attributeError : String → PyErr
  | msgSpecException : String → PyErr
  | exception : String → PyErr
  deriving DecidableEq

instance {e a : Type} [DecidableEq e] [DecidableEq a] : DecidableEq (Except e a) :=
  fun x y =>
  match x, y with
  | .ok v, .ok w => if h : v = w then .isTrue (by rw [h]) else .isFalse (by simp [h])
  | .error v, .error w => if h : v = w then .isTrue (by rw [h]) else .isFalse (by simp [h])
  | .ok v, .error w => .isFalse (by simp)
  | .error v, .ok w => .isFalse (by simp)

/-- Whether an `Except` computation returned normally. -/
def exceptIsOk {e a : Type} : Except e a → Bool
  | .ok _ => true
  | .error _ => false

/-- Attribute access `spec.text` on an arbitrary Python value: message
and service schemas have it; other values raise `AttributeError`
unless they happen to expose a `text` attribute (duck typing). -/
def pyText : PyValue → Except PyErr String
  | .msg m => .ok m.text
  | .srv s => .ok s.text
  | .other (some t) => .ok t
  | .other none => .error (.attributeError "text")

/-- Required positional parameters of `_add_msgs_depends` (source line
59: `spec`, `deps`, `package_context`, `includepath`) — none of them
has a default value. -/
def addMsgsDependsRequiredParams : Nat := 4

/-- Arguments supplied at each `_add_msgs_depends` call site inside
`get_dependencies` (source lines 244, 246, 247: `spec`, `deps`,
`package`). -/
def addMsgsDependsCallArgs : Nat := 3

/-- Body of `_add_msgs_depends` (source lines 59-80), reachable only
when all four parameters are bound.  Its first statement (line 66)
calls `log(...)`, but `log` is an undefined name in the module, so the
body raises `NameError` before walking any field type.  (Line 79 also
references the undefined name `rosidl`, which is never reached.) -/
def _add_msgs_depends (env : Env) (spec : MsgSpec) (deps : List String)
    (package_context : String) (includepath : List String) :
    Except PyErr (List String) :=
  .error (.nameError "log")

/-- Python semantics of the three-argument call
`_add_msgs_depends(spec, deps, package)` (source lines 244/246/247): a
call supplying fewer arguments than the function's required positional
parameters raises `TypeError` before the body runs.  The `else` branch
(the body with the missing `includepath` bound to a placeholder) is
unreachable since 3 < 4. -/
def callAddMsgsDepends3 (env : Env) (spec : MsgSpec) (deps : List String)
    (package : String) : Except PyErr (List String) :=
  if addMsgsDependsCallArgs < addMsgsDependsRequiredParams then
    .error .typeError
  else
    _add_msgs_depends env spec deps package []

/-- The `except KeyError` handler of `get_dependencies` (source lines
250-251): a `KeyError` raised inside the try block is converted to a
`MsgSpecException`; every other exception propagates unchanged. -/
def keyErrToSpecErr {α : Type} : Except PyErr α → Except PyErr α
  | .error (.keyError k) =>
    .error (.msgSpecException
      ("Cannot load type " ++ k ++ ".  Perhaps the package is missing a dependency."))
  | x => x

/-- The unique-dependency pass of `get_dependencies` (source lines
264-268): walk `deps` in order, appending each element not already
present. -/
def uniqueList (deps : List String) : List String :=
  deps.foldl (fun acc d => if d ∈ acc then acc else acc ++ [d]) []

/-- The bundle construction of `get_dependencies` (source lines
253-273): the optional `files` mapping (content-wise: one entry per
distinct dependency, resolved via `package_resource_name` with the
local-package fallback and `msg_file`), the `uniquedeps` pass, and the
result dictionary.  In the source this code is unreachable because the
try block always raises first. -/
def buildBundle (env : Env) (spec : PyValue) (package : String)
    (compute_files : Bool) (deps : List String) : Bundle :=
  { spec := spec
    package := package
    deps := deps
    uniquedeps := uniqueList deps
    files :=
      if compute_files then
        some ((uniqueList deps).map (fun d =>
          let pr := package_resource_name d
          let d_pkg := if pr.fst = "" then package else pr.fst
          (d, env.msg_file d_pkg pr.snd)))
      else none }

/-- `get_dependencies(spec, package, compute_files)` (source lines
217-273): dispatch on the spec kind inside a try block whose
`_add_msgs_depends` calls pass three arguments to a four-parameter
function, with the `except KeyError` conversion of lines 250-251; a
value that is neither message nor service raises `MsgSpecException`
(line 249). -/
def get_dependencies (env : Env) (spec : PyValue) (package : String)
    (compute_files : Bool) : Except PyErr Bundle :=
  match spec with
  | .msg m =>
    match keyErrToSpecErr (callAddMsgsDepends3 env m [] package) with
    | .error e => .error e
    | .ok deps => .ok (buildBundle env (.msg m) package compute_files deps)
  | .srv s =>
    match keyErrToSpecErr
        (match callAddMsgsDepends3 env s.request [] package with
         | .error e => .error e
         | .ok d1 => callAddMsgsDepends3 env s.response d1 package) with
    | .error e => .error e
    | .ok deps => .ok (buildBundle env (.srv s) package compute_files deps)
  | .other o =>
    .error (.msgSpecException "spec does not appear to be a message or service")

/-- Supporting fact needed by the embedding of `compute_md5_text`:
`get_dependencies` never returns a bundle — for message and service
specs the three-argument call raises `TypeError`, and for any other
value the kind check raises `MsgSpecException`. -/
def get_dependencies_not_ok (env : Env) (spec : PyValue) (package : String)
    (compute_files : Bool) (b : Bundle) :
    ¬ get_dependencies env spec package compute_files = .ok b := by
  cases spec <;>
    simp [get_dependencies, keyErrToSpecErr, callAddMsgsDepends3,
      addMsgsDependsCallArgs, addMsgsDependsRequiredParams]

/-- The field loop of `compute_md5_text` (source lines 102-116), one
step per `(type, name)` pair of `zip(spec.types, spec.names)`.  A
builtin base type emits the declared type text verbatim (line 106).  A
non-builtin base type resolves the sub-package (lines 111-112, with the
bundle package as fallback for an unqualified name), fetches the
registered sub-spec (line 113, `KeyError` when absent), and then calls
`get_dependencies` (line 114) — which always raises, so the recursive
`compute_md5(sub_deps)` of line 115 is unreachable; the embedding
carries the proof of that unreachability instead of the dead call. -/
def md5FieldLines (env : Env) (package : String) (compute_files : Bool) :
    List (String × String) → Except PyErr String
  | [] => .ok ""
  | (type_, name) :: rest =>
    let bmt := base_msg_type type_
    if env.is_builtin bmt then
      match md5FieldLines env package compute_files rest with
      | .error e => .error e
      | .ok restText => .ok (type_ ++ " " ++ name ++ "\n" ++ restText)
    else
      let sub_pkg :=
        if (package_resource_name bmt).fst = "" then package
        else (package_resource_name bmt).fst
      match env.getRegistered bmt (some package) with
      | none => .error (.keyError bmt)
      | some sub_spec =>
        match hgd : get_dependencies env (.msg sub_spec) sub_pkg compute_files with
        | .error e => .error e
        | .ok b =>
          absurd hgd (get_dependencies_not_ok env (.msg sub_spec) sub_pkg compute_files b)

/-- Core of `compute_md5_text` (source lines 83-118) given the values
the source reads from the bundle dictionary: write one
`"<type> <name>=<value>\n"` line per constant in declaration order
(lines 100-101), then the field lines (lines 102-116), and return the
buffer contents passed through Python `str.strip()` (line 118). -/
def md5TextFrom (env : Env) (package : String) (compute_files : Bool)
    (spec : MsgSpec) : Except PyErr String :=
  match md5FieldLines env package compute_files (spec.types.zip spec.names) with
  | .error e => .error e
  | .ok fieldText =>
    .ok (pyStrip
      (strConcat (spec.constants.map
        (fun c => c.type ++ " " ++ c.name ++ "=" ++ c.valText ++ "\n")) ++ fieldText))

/-- `compute_md5_text(get_deps_dict, spec)` (source lines 83-118): the
source reads `package` (line 94) and the presence of the `files` key
(line 96) from the bundle; `uniquedeps` is read at line 93 but never
used. -/
def compute_md5_text (env : Env) (d : Bundle) (spec : MsgSpec) :
    Except PyErr String :=
  md5TextFrom env d.package d.files.isSome spec

/-- `_compute_hash(get_deps_dict, hash)` (source lines 120-138): one
running digest context, updated with the message's canonical text, or
with the request's and then the response's canonical text for a
service (lines 131-135); any other spec kind raises (line 137). -/
def _compute_hash (env : Env) (d : Bundle) (h : Md5) : Except PyErr String :=
  match d.spec with
  | .msg m =>
    match compute_md5_text env d m with
    | .error e => .error e
    | .ok t => .ok ((h.update t).hexdigest)
  | .srv s =>
    match compute_md5_text env d s.request with
    | .error e => .error e
    | .ok treq =>
      match compute_md5_text env d s.response with
      | .error e => .error e
      | .ok tresp => .ok (((h.update treq).update tresp).hexdigest)
  | .other o => .error (.exception "is not a message or service")

/-- `compute_md5(get_deps_dict)` (source lines 169-184): `_compute_hash`
on a fresh `hashlib.md5()` context. -/
def compute_md5 (env : Env) (d : Bundle) : Except PyErr String :=
  _compute_hash env d md5_new

/-- Alias `compute_md5_v2 = compute_md5` (source line 187). -/
def compute_md5_v2 (env : Env) (d : Bundle) : Except PyErr String :=
  compute_md5 env d

/-- The dependency loop of `_compute_hash_v1` (source lines 154-155):
update the digest with the raw registered text of each unique
dependency in order; an unregistered dependency raises `KeyError`. -/
def v1FoldDeps (env : Env) (h : Md5) : List String → Except PyErr Md5
  | [] => .ok h
  | u :: rest =>
    match env.getRegistered u none with
    | none => .error (.keyError u)
    | some sp => v1FoldDeps env (h.update sp.text) rest

/-- `_compute_hash_v1(get_deps_dict, hash)` (source lines 140-156):
update the digest with the root spec's raw text (`spec.text`, an
attribute access with no kind check), then with each unique
dependency's raw registered text in `uniquedeps` order, and return the
hex digest. -/
def _compute_hash_v1 (env : Env) (d : Bundle) (h : Md5) : Except PyErr String :=
  match pyText d.spec with
  | .error e => .error e
  | .ok t =>
    match v1FoldDeps env (h.update t) d.uniquedeps with
    | .error e => .error e
    | .ok hFinal => .ok hFinal.hexdigest

/-- `compute_md5_v1(get_deps_dict)` (source lines 158-167):
`_compute_hash_v1` on a fresh `hashlib.md5()` context. -/
def compute_md5_v1 (env : Env) (d : Bundle) : Except PyErr String :=
  _compute_hash_v1 env d md5_new

/-- The 80-character `=` delimiter line of `compute_full_text` (source
line 203, `'='*80`). -/
def eq80 : String := String.mk (List.replicate 80 '=')

/-- The dependency loop of `compute_full_text` (source lines 209-213):
append, for each unique dependency in order, the separator line, the
`MSG:` marker line, the dependency's raw registered text, and a
newline. -/
def fullTextFold (env : Env) (acc : String) : List String → Except PyErr String
  | [] => .ok acc
  | u :: rest =>
    match env.getRegistered u none with
    | none => .error (.keyError u)
    | some sp =>
      fullTextFold env
        (acc ++ (eq80 ++ "\n" ++ "MSG: " ++ u ++ "\n" ++ sp.text ++ "\n")) rest

/-- `compute_full_text(get_deps_dict)` (source lines 189-215): the root
spec's raw text, a newline, the dependency blocks, and Python `[:-1]`
to drop the final character (the trailing newline the concatenation
scheme added). -/
def compute_full_text (env : Env) (d : Bundle) : Except PyErr String :=
  match pyText d.spec with
  | .error e => .error e
  | .ok t =>
    match fullTextFold env (t ++ "\n") d.uniquedeps with
    | .error e => .error e
    | .ok s => .ok (pySliceToLast s)

/-- The raw registered texts of a dependency list, in order, when every
entry is registered in the environment (the hypothesis under which the
v1 hash and the full-text assembly return normally). -/
def lookupTexts (env : Env) : List String → Option (List String)
  | [] => some []
  | u :: rest =>
    match env.getRegistered u none with
    | none => none
    | some sp =>
      match lookupTexts env rest with
      | none => none
      | some ts => some (sp.text :: ts)

/-- Removal of exactly the trailing newline, when present, and nothing
else. -/
def dropTrailingNewline (s : String) : String :=
  if s.data.getLast? = some '\n' then pySliceToLast s else s

/-- Rendering of the canonical hash text exactly as claim C1 words it
(a refinement definition following the claim, for comparison with
`compute_md5_text`): one `"<type> <name>=<value>"` line per constant in
declaration order, then one `"<type> <name>"` line per field with the
declared type text verbatim, with only the trailing newline stripped
from the final output. -/
def claimCanonicalTextC1 (spec : MsgSpec) : String :=
  dropTrailingNewline
    (strConcat (spec.constants.map
      (fun c => c.type ++ " " ++ c.name ++ "=" ++ c.valText ++ "\n")) ++
     strConcat ((spec.types.zip spec.names).map
      (fun p => p.1 ++ " " ++ p.2 ++ "\n")))

/-- The dependency block written for one unique dependency by
`compute_full_text` (source lines 210-213): separator line, `MSG:`
marker line, the dependency's raw text, and a newline. -/
def fullTextBlock (u : String) (rawText : String) : String :=
  eq80 ++ "\n" ++ "MSG: " ++ u ++ "\n" ++ rawText ++ "\n"

/-- A registered schema `pkg/Point` with two builtin fields, used as
concrete registry content for the claims' concrete inputs. -/
def pointSpec : MsgSpec :=
  { constants := []
    types := ["float64", "float64"]
    names := ["x", "y"]
    text := "float64 x\nfloat64 y\n" }

/-- A concrete environment: the standard primitive names are builtin,
and the single type `Point` is registered under `pkg/Point` (also
visible under its unqualified name), as the spec's concrete scenarios
assume. -/
def envStd : Env :=
  { is_builtin := fun t => t == "int32" || t == "float64" || t == "string" || t == "uint8"
    getRegistered := fun t _ =>
      if t == "Point" || t == "pkg/Point" then some pointSpec else none
    msg_file := fun p n => p ++ "/msg/" ++ n ++ ".msg" }

/-- A message with one non-builtin field `Point points`. -/
def polygonSpec : MsgSpec :=
  { constants := [], types := ["Point"], names := ["points"], text := "Point points\n" }

/-- A bundle (constructed directly, since `get_dependencies` never
returns one) for `polygonSpec` in package `pkg`. -/
def dPoly : Bundle :=
  { spec := .msg polygonSpec, package := "pkg", deps := [], uniquedeps := [], files := none }

/-- A message whose only constant has a value text ending in a space:
the input on which Python `str.strip()` removes more than the trailing
newline. -/
def specKtrail : MsgSpec :=
  { constants := [{ type := "int32", name := "K", valText := "1 " }]
    types := [], names := [], text := "int32 K=1 \n" }

/-- A bundle for `specKtrail`. -/
def dKtrail : Bundle :=
  { spec := .msg specKtrail, package := "pkg", deps := [], uniquedeps := [], files := none }

/-- Request schema of the fingerprint-collision pair: canonical text
`"string KC=x"`. -/
def msgKx : MsgSpec :=
  { constants := [{ type := "string", name := "KC", valText := "x" }]
    types := [], names := [], text := "string KC=x\n" }

/-- Response schema of the fingerprint-collision pair: canonical text
`"string KC=xstring KC=x"`, which is the square of `msgKx`'s canonical
text as a string (string constants may contain spaces, so this is a
well-formed constant value). -/
def msgKxx : MsgSpec :=
  { constants := [{ type := "string", name := "KC", valText := "xstring KC=x" }]
    types := [], names := [], text := "string KC=xstring KC=x\n" }

/-- Service with request `msgKx` and response `msgKxx`. -/
def srvSwapA : SrvSpec := { request := msgKx, response := msgKxx, text := "ta" }

/-- The same service with request and response swapped. -/
def srvSwapB : SrvSpec := { request := msgKxx, response := msgKx, text := "tb" }

/-- Bundle for `srvSwapA`. -/
def dSwapA : Bundle :=
  { spec := .srv srvSwapA, package := "p", deps := [], uniquedeps := [], files := none }

/-- Bundle for `srvSwapB`. -/
def dSwapB : Bundle :=
  { spec := .srv srvSwapB, package := "p", deps := [], uniquedeps := [], files := none }

/-- A plain service with request `int32 a` and response `int32 b`. -/
def srvAB : SrvSpec :=
  { request := { constants := [], types := ["int32"], names := ["a"], text := "int32 a\n" }
    response := { constants := [], types := ["int32"], names := ["b"], text := "int32 b\n" }
    text := "int32 a\n---\nint32 b\n" }

/-- Bundle for `srvAB`. -/
def dSrvAB : Bundle :=
  { spec := .srv srvAB, package := "p", deps := [], uniquedeps := [], files := none }

/-- Bundle for `srvAB` with request and response swapped. -/
def dSrvBA : Bundle :=
  { spec := .srv { request := srvAB.response, response := srvAB.request, text := "tw" }
    package := "p", deps := [], uniquedeps := [], files := none }

/-- The root message of the full-text scenario, raw text `"int32 a\n"`. -/
def msgIntA : MsgSpec :=
  { constants := [], types := ["int32"], names := ["a"], text := "int32 a\n" }

/-- The full-text scenario bundle: root `msgIntA` and one unique
dependency `pkg/Point`. -/
def dC9 : Bundle :=
  { spec := .msg msgIntA, package := "pkg", deps := ["pkg/Point"]
    uniquedeps := ["pkg/Point"], files := none }

/-- Two bundles that agree on `spec`, `package`, `uniquedeps`, and the
presence of `files`, but differ in `deps` and in the `files` map
contents. -/
def dC4a : Bundle :=
  { spec := .msg msgIntA, package := "pkg", deps := ["pkg/Point", "pkg/Point"]
    uniquedeps := ["pkg/Point"], files := some [("pkg/Point", "one.msg")] }

/-- See `dC4a`. -/
def dC4b : Bundle :=
  { spec := .msg msgIntA, package := "pkg", deps := ["pkg/Point"]
    uniquedeps := ["pkg/Point"], files := some [("pkg/Point", "two.msg")] }

/-- A bundle whose `spec` is a non-schema value that happens to expose
a `text` attribute (Python duck typing). -/
def dOtherT : Bundle :=
  { spec := .other (some "T"), package := "p", deps := [], uniquedeps := [], files := none }

/-- A bundle whose `spec` is a non-schema value without a `text`
attribute. -/
def dOtherN : Bundle :=
  { spec := .other none, package := "p", deps := [], uniquedeps := [], files := none }

/-- A message with constants and builtin fields only (including an
array annotation on a builtin base type), for the C1 witness. -/
def specAllB : MsgSpec :=
  { constants := [{ type := "int32", name := "MAX", valText := "10" }]
    types := ["int32", "float64[3]"], names := ["a", "b"], text := "tt" }

/-- Bundle for `specAllB`. -/
def dAllB : Bundle :=
  { spec := .msg specAllB, package := "pkg", deps := [], uniquedeps := [], files := none }

/-- Bundle for the v1-hash witness: root `msgIntA` with one unique
dependency `pkg/Point`. -/
def dV1 : Bundle :=
  { spec := .msg msgIntA, package := "pkg", deps := ["pkg/Point"]
    uniquedeps := ["pkg/Point"], files := none }

/-- String append on the underlying character lists. -/
theorem strEmpty_append (s : String) : "" ++ s = s := by
  cases s; rfl

/-- Appending the empty string on the right is the identity. -/
theorem strAppend_empty (s : String) : s ++ "" = s := by
  cases s with
  | mk l => exact congrArg String.mk (List.append_nil l)

/-- String append is associative. -/
theorem strAppend_assoc (a b c : String) : a ++ b ++ c = a ++ (b ++ c) := by
  cases a; cases b; cases c
  exact congrArg String.mk (List.append_assoc _ _ _)

/-- Python `s[:-1]` undoes appending one newline. -/
theorem pySliceToLast_newline (w : String) : pySliceToLast (w ++ "\n") = w := by
  cases w with
  | mk l =>
    have h : (String.mk l ++ "\n").data = l ++ ['\n'] := rfl
    simp only [pySliceToLast, h, List.dropLast_concat]

/-- When every base type in a field list is builtin, the field loop of
`compute_md5_text` emits exactly one verbatim `"<type> <name>\n"` line
per `(type, name)` pair, in order. -/
theorem md5FieldLines_builtin (env : Env) (package : String) (cf : Bool)
    (pairs : List (String × String))
    (h : ∀ p ∈ pairs, env.is_builtin (base_msg_type p.1) = true) :
    md5FieldLines env package cf pairs =
      .ok (strConcat (pairs.map (fun p => p.1 ++ " " ++ p.2 ++ "\n"))) := by
  induction pairs with
  | nil => rfl
  | cons p rest ih =>
    obtain ⟨t, n⟩ := p
    have hb := h (t, n) (List.mem_cons_self _ _)
    have hr := ih (fun q hq => h q (List.mem_cons_of_mem _ hq))
    simp only [md5FieldLines, hb, if_true, hr, strConcat, List.map_cons]

/-- C1 (amended): for every message schema all of whose field base
types are builtin, the canonical hash text consists of one
`"<type> <name>=<value>"` line per constant in original declaration
order, before the field lines, then one `"<type> <name>"` line per
field with the declared type text reproduced verbatim (array/container
annotations preserved literally), the whole output passed through
Python `str.strip()` — which removes the trailing newline and any
other leading or trailing whitespace. -/
theorem c1_md5_text_format (env : Env) (d : Bundle) (spec : MsgSpec)
    (h : ∀ t ∈ spec.types, env.is_builtin (base_msg_type t) = true) :
    compute_md5_text env d spec =
      .ok (pyStrip
        (strConcat (spec.constants.map
          (fun c => c.type ++ " " ++ c.name ++ "=" ++ c.valText ++ "\n")) ++
         strConcat ((spec.types.zip spec.names).map
          (fun p => p.1 ++ " " ++ p.2 ++ "\n")))) := by
  have hz : ∀ p ∈ spec.types.zip spec.names,
      env.is_builtin (base_msg_type p.1) = true := by
    intro p hp
    obtain ⟨a, b⟩ := p
    exact h a (List.of_mem_zip hp).1
  unfold compute_md5_text md5TextFrom
  rw [md5FieldLines_builtin env d.package d.files.isSome _ hz]

/-- Witness for C1's theorem at a concrete schema with one constant and
two builtin fields (one with an array annotation). -/
theorem c1_md5_text_format_witness :
    (∀ t ∈ specAllB.types, envStd.is_builtin (base_msg_type t) = true) ∧
    compute_md5_text envStd dAllB specAllB =
      .ok (pyStrip
        (strConcat (specAllB.constants.map
          (fun c => c.type ++ " " ++ c.name ++ "=" ++ c.valText ++ "\n")) ++
         strConcat ((specAllB.types.zip specAllB.names).map
          (fun p => p.1 ++ " " ++ p.2 ++ "\n")))) :=
  ⟨by decide, c1_md5_text_format envStd dAllB specAllB (by decide)⟩

/-- C1 counterexample: on a schema whose only constant's value text
ends in a space, the code's `str.strip()` also removes that space, so
the output differs from "the trailing newline stripped" that the claim
states.  (Python: `"int32 K=1 \n".strip()` is `"int32 K=1"`.) -/
theorem c1_md5_text_counterexample :
    compute_md5_text envStd dKtrail specKtrail = .ok "int32 K=1" ∧
    claimCanonicalTextC1 specKtrail = "int32 K=1 " ∧
    ("int32 K=1" == "int32 K=1 ") = false := by
  decide

/-- C2: at every field whose base type is not builtin, the code looks
up the registered sub-spec and then calls `get_dependencies` (source
line 114), which always raises `TypeError` (three arguments for the
four-parameter `_add_msgs_depends`), so the `"<submd5> <name>"` line of
the claim is never produced; evaluated here on `Point points` with
`Point` registered. -/
theorem c2_submd5_unreachable :
    compute_md5_text envStd dPoly polygonSpec = .error .typeError := by
  decide

/-- C3 (amended): for every service bundle, the fingerprint is the hex
digest of one running context updated first with the request's
canonical text, then with the response's, in that fixed order — the
digest stream is the plain concatenation of the two texts.
Consequently two services' fingerprints coincide exactly when those
concatenations coincide; swapping distinct request/response texts
changes the fingerprint unless the two texts commute as strings, so
distinctness alone does not guarantee a different fingerprint. -/
theorem c3_service_hash_order (env : Env) (d1 d2 : Bundle) (s1 s2 : SrvSpec)
    (r1 p1 r2 p2 : String)
    (h1 : d1.spec = .srv s1) (h2 : d2.spec = .srv s2)
    (hr1 : compute_md5_text env d1 s1.request = .ok r1)
    (hp1 : compute_md5_text env d1 s1.response = .ok p1)
    (hr2 : compute_md5_text env d2 s2.request = .ok r2)
    (hp2 : compute_md5_text env d2 s2.response = .ok p2) :
    compute_md5 env d1 = .ok (r1 ++ p1) ∧
    compute_md5 env d2 = .ok (r2 ++ p2) ∧
    (compute_md5 env d1 = compute_md5 env d2 ↔ r1 ++ p1 = r2 ++ p2) := by
  have e1 : compute_md5 env d1 = .ok (r1 ++ p1) := by
    unfold compute_md5 _compute_hash
    rw [h1]
    simp only [hr1, hp1, md5_new, Md5.update, Md5.hexdigest, strEmpty_append]
  have e2 : compute_md5 env d2 = .ok (r2 ++ p2) := by
    unfold compute_md5 _compute_hash
    rw [h2]
    simp only [hr2, hp2, md5_new, Md5.update, Md5.hexdigest, strEmpty_append]
  refine ⟨e1, e2, ?_⟩
  rw [e1, e2]
  simp

/-- Witness for C3's theorem at the plain `int32 a` / `int32 b`
service and its swap (here the concatenations differ, so the
fingerprints differ). -/
theorem c3_service_hash_order_witness :
    compute_md5 envStd dSrvAB = .ok ("int32 a" ++ "int32 b") ∧
    compute_md5 envStd dSrvBA = .ok ("int32 b" ++ "int32 a") ∧
    (compute_md5 envStd dSrvAB = compute_md5 envStd dSrvBA ↔
      "int32 a" ++ "int32 b" = "int32 b" ++ "int32 a") :=
  c3_service_hash_order envStd dSrvAB dSrvBA srvAB
    { request := srvAB.response, response := srvAB.request, text := "tw" }
    "int32 a" "int32 b" "int32 b" "int32 a"
    rfl rfl (by decide) (by decide) (by decide) (by decide)

/-- C3 counterexample: two services whose request and response
canonical texts are distinct and swapped but commute as strings (one
is the square of the other, realizable with string constants, whose
value text may contain spaces) produce the same digest stream and
hence the same fingerprint, refuting the claim's "the fingerprints
differ". -/
theorem c3_service_swap_counterexample :
    compute_md5_text envStd dSwapA srvSwapA.request = .ok "string KC=x" ∧
    compute_md5_text envStd dSwapA srvSwapA.response = .ok "string KC=xstring KC=x" ∧
    compute_md5_text envStd dSwapB srvSwapB.request = .ok "string KC=xstring KC=x" ∧
    compute_md5_text envStd dSwapB srvSwapB.response = .ok "string KC=x" ∧
    ("string KC=x" == "string KC=xstring KC=x") = false ∧
    compute_md5 envStd dSwapA = .ok "string KC=xstring KC=xstring KC=x" ∧
    compute_md5 envStd dSwapB = .ok "string KC=xstring KC=xstring KC=x" := by
  decide

/-- C4: both fingerprint schemes are deterministic pure functions of
the bundle and registry contents: any two bundles agreeing on `spec`,
`package`, `uniquedeps`, and the presence of the `files` key produce
identical current-scheme and legacy-scheme results in the same
environment, regardless of their `deps` lists or `files` map contents
(and the embedding has no pointer identity, iteration order, or
wall-clock state to depend on). -/
theorem c4_fingerprint_deterministic (env : Env) (d1 d2 : Bundle)
    (hs : d1.spec = d2.spec) (hp : d1.package = d2.package)
    (hu : d1.uniquedeps = d2.uniquedeps) (hf : d1.files.isSome = d2.files.isSome) :
    compute_md5 env d1 = compute_md5 env d2 ∧
    compute_md5_v1 env d1 = compute_md5_v1 env d2 := by
  constructor
  · unfold compute_md5 _compute_hash compute_md5_text
    simp only [hs, hp, hf]
  · unfold compute_md5_v1 _compute_hash_v1
    simp only [hs, hu]

/-- Witness for C4's theorem: two concrete bundles differing only in
`deps` and in the `files` map contents have equal fingerprints under
both schemes. -/
theorem c4_fingerprint_deterministic_witness :
    compute_md5 envStd dC4a = compute_md5 envStd dC4b ∧
    compute_md5_v1 envStd dC4a = compute_md5_v1 envStd dC4b :=
  c4_fingerprint_deterministic envStd dC4a dC4b rfl rfl rfl rfl

/-- Invariant of the unique-dependency fold (source lines 265-268):
starting from a duplicate-free accumulator, the fold extends it by a
duplicate-free subsequence of the input covering exactly the input's
elements not already present. -/
theorem uniqueFold_invariant (xs : List String) :
    ∀ acc : List String, acc.Nodup →
      ∃ l, xs.foldl (fun acc d => if d ∈ acc then acc else acc ++ [d]) acc = acc ++ l ∧
        (acc ++ l).Nodup ∧ List.Sublist l xs ∧
        (∀ a, a ∈ acc ++ l ↔ a ∈ acc ∨ a ∈ xs) := by
  induction xs with
  | nil =>
    intro acc hacc
    exact ⟨[], by simp, by simpa using hacc, List.Sublist.refl [], by simp⟩
  | cons d rest ih =>
    intro acc hacc
    by_cases hd : d ∈ acc
    · obtain ⟨l, h1, h2, h3, h4⟩ := ih acc hacc
      refine ⟨l, ?_, h2, h3.cons d, ?_⟩
      · simpa [hd] using h1
      · intro a
        rw [h4 a]
        simp only [List.mem_cons]
        constructor
        · rintro (h | h)
          · exact Or.inl h
          · exact Or.inr (Or.inr h)
        · rintro (h | h | h)
          · exact Or.inl h
          · exact Or.inl (h ▸ hd)
          · exact Or.inr h
    · have hacc2 : (acc ++ [d]).Nodup := by
        simp [List.nodup_append, hacc, hd]
      obtain ⟨l, h1, h2, h3, h4⟩ := ih (acc ++ [d]) hacc2
      refine ⟨d :: l, ?_, ?_, h3.cons₂ d, ?_⟩
      · rw [List.foldl_cons]
        simp only [hd, if_false]
        rw [h1, List.append_assoc]
        rfl
      · rw [show acc ++ d :: l = (acc ++ [d]) ++ l by simp]
        exact h2
      · intro a
        rw [show acc ++ d :: l = (acc ++ [d]) ++ l by simp, h4 a]
        simp [List.mem_append, List.mem_cons, or_assoc]

/-- C5: dependency resolution never produces a bundle (evaluated here
on a message with one registered non-builtin field type, where the
three-argument `_add_msgs_depends` call raises `TypeError`); the
dedup pass itself (source lines 264-268), applied to any `deps` list,
yields a duplicate-free subsequence of `deps` containing exactly the
elements of `deps` — i.e. first-occurrence order with duplicates
removed. -/
theorem c5_resolver_and_unique :
    get_dependencies envStd (.msg polygonSpec) "pkg" true = .error .typeError ∧
    ∀ deps : List String, (uniqueList deps).Nodup ∧
      List.Sublist (uniqueList deps) deps ∧
      (∀ a, a ∈ uniqueList deps ↔ a ∈ deps) := by
  constructor
  · decide
  · intro deps
    obtain ⟨l, h1, h2, h3, h4⟩ := uniqueFold_invariant deps [] List.nodup_nil
    have hl : uniqueList deps = l := by simpa [uniqueList] using h1
    refine ⟨?_, ?_, ?_⟩
    · rw [hl]; simpa using h2
    · rw [hl]; exact h3
    · intro a; rw [hl]; simpa using h4 a

/-- C6: `get_dependencies` never returns a dependency bundle — it
passes three arguments (line 244/246/247) to `_add_msgs_depends`,
which has four required parameters (`includepath` has no default), so
message and service specs raise `TypeError` and any other value raises
`MsgSpecException`; and the resolver body itself, had it been entered,
would raise `NameError` on the undefined name `log` (line 66) before
walking any field type. -/
theorem c6_resolution_always_raises :
    (∀ (env : Env) (spec : PyValue) (package : String) (cf : Bool),
      exceptIsOk (get_dependencies env spec package cf) = false) ∧
    addMsgsDependsCallArgs < addMsgsDependsRequiredParams ∧
    (∀ (env : Env) (m : MsgSpec) (deps : List String) (pc : String) (ip : List String),
      _add_msgs_depends env m deps pc ip = .error (.nameError "log")) := by
  refine ⟨?_, by decide, fun env m deps pc ip => rfl⟩
  intro env spec package cf
  cases hgd : get_dependencies env spec package cf with
  | ok b => exact absurd hgd (get_dependencies_not_ok env spec package cf b)
  | error e => rfl

/-- Closed form of the v1 dependency loop: when every dependency is
registered, the digest stream is extended by the concatenation of
their raw texts in order. -/
theorem v1FoldDeps_ok (env : Env) :
    ∀ (us ts : List String) (acc : String),
      lookupTexts env us = some ts →
      v1FoldDeps env ⟨acc⟩ us = .ok ⟨acc ++ strConcat ts⟩ := by
  intro us
  induction us with
  | nil =>
    intro ts acc h
    simp only [lookupTexts, Option.some.injEq] at h
    subst h
    simp [v1FoldDeps, strConcat, strAppend_empty]
  | cons u rest ih =>
    intro ts acc h
    cases hg : env.getRegistered u none with
    | none => simp [lookupTexts, hg] at h
    | some sp =>
      cases hr : lookupTexts env rest with
      | none => simp [lookupTexts, hg, hr] at h
      | some ts2 =>
        simp only [lookupTexts, hg, hr, Option.some.injEq] at h
        subst h
        simp only [v1FoldDeps, hg]
        rw [show Md5.update ⟨acc⟩ sp.text = (⟨acc ++ sp.text⟩ : Md5) from rfl,
          ih ts2 (acc ++ sp.text) hr]
        simp [strConcat, strAppend_assoc]

/-- The v1 fingerprint as one formula: digest stream = root raw text
followed by the unique dependencies' raw texts in order. -/
theorem compute_md5_v1_formula (env : Env) (d : Bundle) (t : String)
    (ts : List String)
    (ht : pyText d.spec = .ok t)
    (hts : lookupTexts env d.uniquedeps = some ts) :
    compute_md5_v1 env d = .ok (t ++ strConcat ts) := by
  unfold compute_md5_v1 _compute_hash_v1
  rw [ht]
  simp only []
  rw [show md5_new.update t = (⟨"" ++ t⟩ : Md5) from rfl,
    v1FoldDeps_ok env d.uniquedeps ts ("" ++ t) hts]
  simp only [Md5.hexdigest, strEmpty_append]

/-- C7: the legacy (v1) fingerprint is the hex digest of one context
updated with the root schema's raw, uncanonicalized definition text
and then with each unique dependency's raw registered text in
`uniquedeps` order — the digest stream is exactly that concatenation,
with no field-level substitution. -/
theorem c7_v1_hash_text (env : Env) (d : Bundle) (t : String) (ts : List String)
    (ht : pyText d.spec = .ok t)
    (hts : lookupTexts env d.uniquedeps = some ts) :
    compute_md5_v1 env d = .ok (t ++ strConcat ts) :=
  compute_md5_v1_formula env d t ts ht hts

/-- Witness for C7's theorem: a root message with one registered
dependency. -/
theorem c7_v1_hash_text_witness :
    pyText dV1.spec = .ok "int32 a\n" ∧
    lookupTexts envStd dV1.uniquedeps = some ["float64 x\nfloat64 y\n"] ∧
    compute_md5_v1 envStd dV1 =
      .ok ("int32 a\n" ++ strConcat ["float64 x\nfloat64 y\n"]) :=
  ⟨rfl, by decide,
    c7_v1_hash_text envStd dV1 "int32 a\n" ["float64 x\nfloat64 y\n"] rfl (by decide)⟩

/-- Closed form of the full-text dependency loop: one `fullTextBlock`
per unique dependency, in order, appended to the accumulator. -/
theorem fullTextFold_ok (env : Env) :
    ∀ (us ts : List String) (acc : String),
      lookupTexts env us = some ts →
      fullTextFold env acc us =
        .ok (acc ++ strConcat (List.zipWith fullTextBlock us ts)) := by
  intro us
  induction us with
  | nil =>
    intro ts acc h
    simp only [lookupTexts, Option.some.injEq] at h
    subst h
    simp [fullTextFold, strConcat, strAppend_empty]
  | cons u rest ih =>
    intro ts acc h
    cases hg : env.getRegistered u none with
    | none => simp [lookupTexts, hg] at h
    | some sp =>
      cases hr : lookupTexts env rest with
      | none => simp [lookupTexts, hg, hr] at h
      | some ts2 =>
        simp only [lookupTexts, hg, hr, Option.some.injEq] at h
        subst h
        simp only [fullTextFold, hg]
        rw [ih ts2 (acc ++ (eq80 ++ "\n" ++ "MSG: " ++ u ++ "\n" ++ sp.text ++ "\n")) hr]
        simp [List.zipWith, strConcat, fullTextBlock, strAppend_assoc]

/-- The assembled full text always ends with a newline: the root part
contributes one, and every dependency block ends with one. -/
theorem fullText_ends_newline :
    ∀ (us ts : List String) (w : String),
      ∃ v, (w ++ "\n") ++ strConcat (List.zipWith fullTextBlock us ts) = v ++ "\n" := by
  intro us
  induction us with
  | nil =>
    intro ts w
    exact ⟨w, by simp [strConcat, strAppend_empty]⟩
  | cons u rest ih =>
    intro ts w
    cases ts with
    | nil => exact ⟨w, by simp [strConcat, strAppend_empty]⟩
    | cons x ts2 =>
      obtain ⟨v, hv⟩ := ih ts2 (w ++ "\n" ++ (eq80 ++ "\n" ++ "MSG: " ++ u ++ "\n" ++ x))
      refine ⟨v, ?_⟩
      rw [← hv]
      simp [List.zipWith, strConcat, fullTextBlock, strAppend_assoc]

/-- C8: full-text assembly produces the root schema's raw text, a
newline, then for each entry of `uniquedeps` in order the 80-character
`=` delimiter line, the `"MSG: <type>\n"` marker line, that
dependency's raw registered text, and a newline — and the result is
that document with exactly the final trailing newline introduced by
the concatenation trimmed (appending `"\n"` back restores the full
document). -/
theorem c8_full_text_assembly (env : Env) (d : Bundle) (t : String)
    (ts : List String)
    (ht : pyText d.spec = .ok t)
    (hts : lookupTexts env d.uniquedeps = some ts) :
    compute_full_text env d =
      .ok (pySliceToLast
        ((t ++ "\n") ++ strConcat (List.zipWith fullTextBlock d.uniquedeps ts))) ∧
    pySliceToLast
        ((t ++ "\n") ++ strConcat (List.zipWith fullTextBlock d.uniquedeps ts)) ++ "\n" =
      (t ++ "\n") ++ strConcat (List.zipWith fullTextBlock d.uniquedeps ts) := by
  obtain ⟨v, hv⟩ := fullText_ends_newline d.uniquedeps ts t
  constructor
  · unfold compute_full_text
    rw [ht]
    simp only []
    rw [fullTextFold_ok env d.uniquedeps ts (t ++ "\n") hts]
  · rw [hv, pySliceToLast_newline]

/-- Witness for C8's theorem at the concrete scenario bundle. -/
theorem c8_full_text_assembly_witness :
    pyText dC9.spec = .ok "int32 a\n" ∧
    lookupTexts envStd dC9.uniquedeps = some ["float64 x\nfloat64 y\n"] ∧
    (compute_full_text envStd dC9 =
      .ok (pySliceToLast
        (("int32 a\n" ++ "\n") ++
          strConcat (List.zipWith fullTextBlock dC9.uniquedeps ["float64 x\nfloat64 y\n"]))) ∧
    pySliceToLast
        (("int32 a\n" ++ "\n") ++
          strConcat (List.zipWith fullTextBlock dC9.uniquedeps ["float64 x\nfloat64 y\n"])) ++ "\n" =
      ("int32 a\n" ++ "\n") ++
        strConcat (List.zipWith fullTextBlock dC9.uniquedeps ["float64 x\nfloat64 y\n"])) :=
  ⟨rfl, by decide,
    c8_full_text_assembly envStd dC9 "int32 a\n" ["float64 x\nfloat64 y\n"] rfl (by decide)⟩

/-- C9 (amended): on the concrete scenario (root raw text
`"int32 a\n"`, one dependency `pkg/Point` with raw text
`"float64 x\nfloat64 y\n"`) the code emits the root text, a second
newline written by the assembler, the delimiter and marker lines, and
the dependency text — and the `[:-1]` trim removes only the newline
the concatenation appended after the dependency text, leaving the
dependency text's own trailing newline in place. -/
theorem c9_full_text_concrete :
    compute_full_text envStd dC9 =
      .ok ("int32 a\n" ++ "\n" ++ eq80 ++ "\n" ++ "MSG: pkg/Point\n" ++
        "float64 x\nfloat64 y\n") := by
  decide

/-- C9 counterexample: the code's output on the claim's input differs
from the claim's string `"int32 a\n" + ("="*80) + "\n" +
"MSG: pkg/Point\n" + "float64 x\nfloat64 y\n"` with the final newline
removed — the code writes an extra newline after the root text and
keeps the dependency text's own trailing newline. -/
theorem c9_full_text_counterexample :
    compute_full_text envStd dC9 =
      .ok ("int32 a\n" ++ "\n" ++ eq80 ++ "\n" ++ "MSG: pkg/Point\n" ++
        "float64 x\nfloat64 y\n") ∧
    (("int32 a\n" ++ "\n" ++ eq80 ++ "\n" ++ "MSG: pkg/Point\n" ++
        "float64 x\nfloat64 y\n") ==
     ("int32 a\n" ++ eq80 ++ "\n" ++ "MSG: pkg/Point\n" ++ "float64 x\nfloat64 y")) =
      false := by
  decide

/-- C10 (amended): for a value that is neither a message nor a service
schema, dependency resolution raises the spec-kind `MsgSpecException`
and current-scheme fingerprinting raises the kind error of source line
137; the legacy scheme, however, performs no kind check at all — it
raises `AttributeError` only when the value lacks a `text` attribute,
and otherwise digests the value's text followed by the registered
dependency texts. -/
theorem c10_spec_kind_errors (env : Env) (d : Bundle) (o : Option String)
    (package : String) (cf : Bool) (h : d.spec = .other o) :
    get_dependencies env (.other o) package cf =
      .error (.msgSpecException "spec does not appear to be a message or service") ∧
    compute_md5 env d = .error (.exception "is not a message or service") ∧
    (o = none → compute_md5_v1 env d = .error (.attributeError "text")) ∧
    (∀ t ts, o = some t → lookupTexts env d.uniquedeps = some ts →
      compute_md5_v1 env d = .ok (t ++ strConcat ts)) := by
  refine ⟨rfl, ?_, ?_, ?_⟩
  · unfold compute_md5 _compute_hash
    rw [h]
  · intro ho
    subst ho
    unfold compute_md5_v1 _compute_hash_v1
    rw [h]
    rfl
  · intro t ts ho hts
    subst ho
    exact compute_md5_v1_formula env d t ts (by rw [h]; rfl) hts

/-- Witness for C10's theorem at a non-schema value that exposes a
`text` attribute. -/
theorem c10_spec_kind_errors_witness :
    get_dependencies envStd (.other (some "T")) "p" false =
      .error (.msgSpecException "spec does not appear to be a message or service") ∧
    compute_md5 envStd dOtherT = .error (.exception "is not a message or service") ∧
    ((some "T" : Option String) = none →
      compute_md5_v1 envStd dOtherT = .error (.attributeError "text")) ∧
    (∀ t ts, (some "T" : Option String) = some t →
      lookupTexts envStd dOtherT.uniquedeps = some ts →
      compute_md5_v1 envStd dOtherT = .ok (t ++ strConcat ts)) :=
  c10_spec_kind_errors envStd dOtherT (some "T") "p" false rfl

/-- C10 counterexample: legacy-scheme fingerprinting of a non-schema
value succeeds (no type error is raised) when the value happens to
expose a `text` attribute — `_compute_hash_v1` performs no kind check. -/
theorem c10_v1_no_kind_check_counterexample :
    compute_md5_v1 envStd dOtherT = .ok "T" := by
  decide
